import Mathlib

/-!
# Verification of the gopengl renderer against its specification

A shallow embedding of the Go program (`main.go` of the gopengl demo): shader
compilation and program linking (`compileShader`, `newProgram`), texture
creation (`newTexture`), the startup sequence and the per-frame render loop of
`main`.

External collaborators (the GLFW window system, the OpenGL driver, the file
system and the image decoder) are modelled as oracles collected in an
environment record `Env`: the driver decides compile/link status, provides
info logs and attribute/uniform locations; the file system maps file names to
contents.  The GL side effects issued by the program are recorded as a trace
of `GLCall` values, and the allocation/deletion of shader and program objects
is tracked in an explicit `GLState`.  Go `float64` time values are modelled
as rationals.
-/

/-- The two shader kinds passed to `gl.CreateShader`
(`gl.VERTEX_SHADER` / `gl.FRAGMENT_SHADER`). -/
inductive ShaderType where
  | vertex
  | fragment
deriving DecidableEq, Repr

/-- The matrix payloads uploaded with `gl.UniformMatrix4fv`: the per-frame
`mgl32.HomogRotate3DZ` rotation about Z (carrying its angle), the
`mgl32.LookAt(2,2,2, 0,0,0, 0,0,1)` view matrix, and the
`mgl32.Perspective(DegToRad 45, 640/480, 1, 10)` projection matrix.
The numeric matrix entries are computed by the external `mgl32` library, so
the payload records which matrix was built and with which time-dependent
angle. -/
inductive Payload where
  | rotZ (angle : ℚ)
  | viewLookAt
  | projPerspective
deriving DecidableEq, Repr

/-- GL calls issued by `main` (and `newTexture`), recorded as a trace. -/
inductive GLCall where
  | genVertexArrays
  | bindVertexArray
  | genBuffers
  | bindBuffer (target : Nat)
  | bufferData (target : Nat) (size : Nat) (usage : Nat)
  | vertexAttribPointer (index : Nat) (size : Nat) (stride : Nat) (offset : Nat)
  | enableVertexAttribArray (index : Nat)
  | genTextures
  | activeTexture (unit : Nat)
  | bindTexture
  | texParameteri (pname : Nat) (param : Nat)
  | texImage2D (width : Nat) (height : Nat)
  | uniformMatrix4fv (loc : Int) (m : Payload)
  | enable (cap : Nat)
  | clearColor (r g b a : ℚ)
  | clear (mask : Nat)
  | drawArrays (mode : Nat) (first : Int) (count : Int)
  | swapBuffers
  | pollEvents
deriving DecidableEq, Repr

/-- OpenGL enumerant values used by the program. -/
def glTRIANGLES : Nat := 0x0004
def glCOLOR_BUFFER_BIT : Nat := 0x4000
def glDEPTH_BUFFER_BIT : Nat := 0x0100
def glARRAY_BUFFER : Nat := 0x8892
def glSTATIC_DRAW : Nat := 0x88E4
def glDEPTH_TEST : Nat := 0x0B71
def glTEXTURE0 : Nat := 0x84C0
def glTEXTURE_MIN_FILTER : Nat := 0x2801
def glTEXTURE_MAG_FILTER : Nat := 0x2800
def glLINEAR : Nat := 0x2601

/-- The OpenGL driver, modelled as an oracle: compile status and info log as
a function of shader kind and source text, link status and program info log,
and the attribute/uniform locations of the linked program (`-1` when the
name is not an active attribute/uniform). -/
structure Driver where
  compileOk : ShaderType → String → Bool
  shaderLog : ShaderType → String → String
  linkOk : Bool
  programLog : String
  attribLoc : String → Int
  uniformLoc : String → Int

/-- The environment of one run of `main`: GLFW/GL initialisation outcomes,
the file system (`ioutil.ReadFile`), the driver, the image decoder oracles
used by `newTexture` (`os.Open` success, `image.Decode` success, decoded
bounds, and the `Stride` of the `image.NewRGBA` buffer), the time at
`startTime := glfw.GetTime()`, and the `glfw.GetTime()` value observed at
each loop iteration. -/
structure Env where
  glfwOk : Bool
  windowOk : Bool
  glInitOk : Bool
  fs : String → Option String
  driver : Driver
  openOk : String → Bool
  decodeOk : String → Bool
  imgWidth : String → Nat
  imgHeight : String → Nat
  rgbaStride : String → Int
  startTime : ℚ
  clock : Nat → ℚ

/-- The Go error values produced by the program (`fmt.Errorf` / library
errors), as a sum type. -/
inductive GoErr where
  | glfwInitError
  | windowError
  | glInitError
  | fileError (file : String)
  | compileError (sourceFile : String) (log : String)
  | linkError (log : String)
  | strideError
deriving DecidableEq, Repr

/-- The `Error()` message of each error value, mirroring the `fmt.Errorf`
format strings in the source (`"failed to compile %v: %v"`,
`"failed to link program: %v"`, `"unsupported stride"`).  Messages of
library-produced errors (GLFW, file I/O) are outside the program's code and
are left abstract as `""`. -/
def GoErr.message : GoErr → String
  | .compileError f log => "failed to compile " ++ f ++ ": " ++ log
  | .linkError log => "failed to link program: " ++ log
  | .strideError => "unsupported stride"
  | _ => ""

/-- Allocation state of GL shader and program objects: fresh-handle counters
and the lists of currently live (created, not yet deleted) objects. -/
structure GLState where
  nextShader : Nat
  liveShaders : List Nat
  nextProgram : Nat
  livePrograms : List Nat
deriving DecidableEq, Repr

/-- The state at startup: no objects allocated, handles issued from 1
(GL object names are nonzero). -/
def initState : GLState :=
  { nextShader := 1, liveShaders := [], nextProgram := 1, livePrograms := [] }

/-- Go `uint32(x)` conversion applied to an `int32` value: reduction modulo
`2^32` (two's-complement reinterpretation), as in
`posAttrib := uint32(gl.GetAttribLocation(...))`. -/
def goUint32 (i : Int) : Nat := (i % (2 ^ 32 : Int)).toNat

/-- `compileShader(sourceFile, shaderType)`: reads the source file
(returning the read error on failure, before any GL object is created),
creates a shader object, compiles it, and on `COMPILE_STATUS == FALSE`
returns the `fmt.Errorf("failed to compile %v: %v", sourceFile, log)` error.
The Go code allocates the log buffer as `strings.Repeat("\x00", logLength+1)`
and lets `gl.GetShaderInfoLog` write the driver's log into it, so the string
carried by the error is the driver's log text followed by the leftover NUL
padding — modelled as `log ++ "\x00"`.  The shader object is not deleted on
the failure path. -/
def compileShader (e : Env) (sourceFile : String) (shaderType : ShaderType)
    (s : GLState) : Except GoErr Nat × GLState :=
  match e.fs sourceFile with
  | none => (.error (.fileError sourceFile), s)
  | some src =>
    let shader := s.nextShader
    let s1 := { s with nextShader := shader + 1,
                       liveShaders := s.liveShaders ++ [shader] }
    if e.driver.compileOk shaderType src then
      (.ok shader, s1)
    else
      (.error (.compileError sourceFile (e.driver.shaderLog shaderType src ++ "\x00")), s1)

/-- `newProgram(vertexShaderFile, fragmentShaderFile)`: compiles the vertex
shader, then the fragment shader (propagating either compile error), creates
a program object, attaches and links; on `LINK_STATUS == FALSE` returns the
`fmt.Errorf("failed to link program: %v", log)` error (the program and both
shader objects stay live); on success deletes the two intermediate shader
objects and returns the program handle. -/
def newProgram (e : Env) (vertexShaderFile fragmentShaderFile : String)
    (s : GLState) : Except GoErr Nat × GLState :=
  match compileShader e vertexShaderFile .vertex s with
  | (.error er, s1) => (.error er, s1)
  | (.ok vertexShader, s1) =>
    match compileShader e fragmentShaderFile .fragment s1 with
    | (.error er, s2) => (.error er, s2)
    | (.ok fragmentShader, s2) =>
      let program := s2.nextProgram
      let s3 := { s2 with nextProgram := program + 1,
                          livePrograms := s2.livePrograms ++ [program] }
      if e.driver.linkOk then
        (.ok program,
         { s3 with liveShaders :=
             (s3.liveShaders.erase vertexShader).erase fragmentShader })
      else
        (.error (.linkError (e.driver.programLog ++ "\x00")), s3)

/-- The outcome of `newTexture`: a texture handle, a returned error, or a
runtime panic (nil-interface dereference of `img` after a failed decode). -/
inductive TexOutcome where
  | ok (texture : Nat)
  | err (er : GoErr)
  | nilPanic
deriving DecidableEq, Repr

/-- The GL calls issued by `newTexture` on its success path. -/
def texTrace (e : Env) (file : String) (texNum : Nat) : List GLCall :=
  [.genTextures, .activeTexture texNum, .bindTexture,
   .texParameteri glTEXTURE_MIN_FILTER glLINEAR,
   .texParameteri glTEXTURE_MAG_FILTER glLINEAR,
   .texImage2D (e.imgWidth file) (e.imgHeight file)]

/-- `newTexture(file, texNum)`: opens the file (returning the open error on
failure); calls `image.Decode` but discards its error — when the decode
fails, `img` is nil and the immediately following `img.Bounds()` call is a
nil-pointer dereference (a runtime panic, not a returned error); builds the
RGBA buffer and returns the `"unsupported stride"` error if its `Stride`
differs from `width*4` (before any GL call); otherwise uploads the texture
and returns its handle. -/
def newTexture (e : Env) (file : String) (texNum : Nat) :
    TexOutcome × List GLCall :=
  if e.openOk file = false then
    (.err (.fileError file), [])
  else if e.decodeOk file = false then
    (.nilPanic, [])
  else if e.rgbaStride file ≠ (e.imgWidth file : Int) * 4 then
    (.err .strideError, [])
  else
    (.ok 1, texTrace e file texNum)

/-- The angle passed to `mgl32.HomogRotate3DZ`:
`glfw.GetTime() - startTime`, i.e. current time minus start time. -/
def rotationAngle (startTime currentTime : ℚ) : ℚ := currentTime - startTime

/-- One iteration of the render loop, in source order: clear the color and
depth buffers, build the rotation-about-Z transform for the elapsed time and
upload it to the `model` uniform, draw 36 vertices as triangles starting at
vertex 0, swap buffers, poll events. -/
def frameTrace (uniModel : Int) (startTime currentTime : ℚ) : List GLCall :=
  [.clear (glCOLOR_BUFFER_BIT ||| glDEPTH_BUFFER_BIT),
   .uniformMatrix4fv uniModel (.rotZ (rotationAngle startTime currentTime)),
   .drawArrays glTRIANGLES 0 36,
   .swapBuffers,
   .pollEvents]

/-- The trace of `frames` iterations of the render loop, the time at
iteration `n` given by `clock n`. -/
def renderLoop (uniModel : Int) (startTime : ℚ) (clock : Nat → ℚ) :
    Nat → List GLCall
  | 0 => []
  | n + 1 => renderLoop uniModel startTime clock n
      ++ frameTrace uniModel startTime (clock n)

/-- The static vertex array: 42 records of 8 float32 values each
(position x y z, color r g b, texture coordinate u v) — 36 cube vertices
followed by 6 ground-quad vertices — transcribed from the source. -/
def vertices : List ℚ :=
  [-0.5, -0.5, -0.5, 1.0, 1.0, 1.0, 0.0, 0.0,
   0.5, -0.5, -0.5, 1.0, 1.0, 1.0, 1.0, 0.0,
   0.5, 0.5, -0.5, 1.0, 1.0, 1.0, 1.0, 1.0,
   0.5, 0.5, -0.5, 1.0, 1.0, 1.0, 1.0, 1.0,
   -0.5, 0.5, -0.5, 1.0, 1.0, 1.0, 0.0, 1.0,
   -0.5, -0.5, -0.5, 1.0, 1.0, 1.0, 0.0, 0.0,

   -0.5, -0.5, 0.5, 1.0, 1.0, 1.0, 0.0, 0.0,
   0.5, -0.5, 0.5, 1.0, 1.0, 1.0, 1.0, 0.0,
   0.5, 0.5, 0.5, 1.0, 1.0, 1.0, 1.0, 1.0,
   0.5, 0.5, 0.5, 1.0, 1.0, 1.0, 1.0, 1.0,
   -0.5, 0.5, 0.5, 1.0, 1.0, 1.0, 0.0, 1.0,
   -0.5, -0.5, 0.5, 1.0, 1.0, 1.0, 0.0, 0.0,

   -0.5, 0.5, 0.5, 1.0, 1.0, 1.0, 1.0, 0.0,
   -0.5, 0.5, -0.5, 1.0, 1.0, 1.0, 1.0, 1.0,
   -0.5, -0.5, -0.5, 1.0, 1.0, 1.0, 0.0, 1.0,
   -0.5, -0.5, -0.5, 1.0, 1.0, 1.0, 0.0, 1.0,
   -0.5, -0.5, 0.5, 1.0, 1.0, 1.0, 0.0, 0.0,
   -0.5, 0.5, 0.5, 1.0, 1.0, 1.0, 1.0, 0.0,

   0.5, 0.5, 0.5, 1.0, 1.0, 1.0, 1.0, 0.0,
   0.5, 0.5, -0.5, 1.0, 1.0, 1.0, 1.0, 1.0,
   0.5, -0.5, -0.5, 1.0, 1.0, 1.0, 0.0, 1.0,
   0.5, -0.5, -0.5, 1.0, 1.0, 1.0, 0.0, 1.0,
   0.5, -0.5, 0.5, 1.0, 1.0, 1.0, 0.0, 0.0,
   0.5, 0.5, 0.5, 1.0, 1.0, 1.0, 1.0, 0.0,

   -0.5, -0.5, -0.5, 1.0, 1.0, 1.0, 0.0, 1.0,
   0.5, -0.5, -0.5, 1.0, 1.0, 1.0, 1.0, 1.0,
   0.5, -0.5, 0.5, 1.0, 1.0, 1.0, 1.0, 0.0,
   0.5, -0.5, 0.5, 1.0, 1.0, 1.0, 1.0, 0.0,
   -0.5, -0.5, 0.5, 1.0, 1.0, 1.0, 0.0, 0.0,
   -0.5, -0.5, -0.5, 1.0, 1.0, 1.0, 0.0, 1.0,

   -0.5, 0.5, -0.5, 1.0, 1.0, 1.0, 0.0, 1.0,
   0.5, 0.5, -0.5, 1.0, 1.0, 1.0, 1.0, 1.0,
   0.5, 0.5, 0.5, 1.0, 1.0, 1.0, 1.0, 0.0,
   0.5, 0.5, 0.5, 1.0, 1.0, 1.0, 1.0, 0.0,
   -0.5, 0.5, 0.5, 1.0, 1.0, 1.0, 0.0, 0.0,
   -0.5, 0.5, -0.5, 1.0, 1.0, 1.0, 0.0, 1.0,

   -1.0, -1.0, -0.5, 0.0, 0.0, 0.0, 0.0, 0.0,
   1.0, -1.0, -0.5, 0.0, 0.0, 0.0, 1.0, 0.0,
   1.0, 1.0, -0.5, 0.0, 0.0, 0.0, 1.0, 1.0,
   1.0, 1.0, -0.5, 0.0, 0.0, 0.0, 1.0, 1.0,
   -1.0, 1.0, -0.5, 0.0, 0.0, 0.0, 0.0, 1.0,
   -1.0, -1.0, -0.5, 0.0, 0.0, 0.0, 0.0, 0.0]

/-- The VAO/VBO setup calls of `main`: generate and bind the vertex array
and buffer, then upload the whole vertex array
(`len(vertices)*4` bytes, `STATIC_DRAW`). -/
def bufferSetup : List GLCall :=
  [.genVertexArrays, .bindVertexArray, .genBuffers, .bindBuffer glARRAY_BUFFER,
   .bufferData glARRAY_BUFFER (vertices.length * 4) glSTATIC_DRAW]

/-- The attribute setup calls of `main`: for each of `position`, `color`,
`texCoord`, query the attribute location, convert it with `uint32(...)`, and
issue `VertexAttribPointer` (sizes 3/3/2, stride `8*4`, offsets 0/`3*4`/`6*4`)
and `EnableVertexAttribArray`. -/
def attribSetup (d : Driver) : List GLCall :=
  let posAttrib := goUint32 (d.attribLoc "position")
  let colAttrib := goUint32 (d.attribLoc "color")
  let texAttrib := goUint32 (d.attribLoc "texCoord")
  [.vertexAttribPointer posAttrib 3 (8 * 4) 0,
   .enableVertexAttribArray posAttrib,
   .vertexAttribPointer colAttrib 3 (8 * 4) (3 * 4),
   .enableVertexAttribArray colAttrib,
   .vertexAttribPointer texAttrib 2 (8 * 4) (6 * 4),
   .enableVertexAttribArray texAttrib]

/-- The uniform setup of `main`: upload the view and projection matrices
once, then enable depth testing and set the clear color — all before the
render loop starts.  The `model` uniform location is queried here but not
written until the loop. -/
def uniformSetup (d : Driver) : List GLCall :=
  [.uniformMatrix4fv (d.uniformLoc "view") .viewLookAt,
   .uniformMatrix4fv (d.uniformLoc "proj") .projPerspective,
   .enable glDEPTH_TEST,
   .clearColor 1 1 1 1]

/-- The full GL trace of a successful run of `main` over `frames` loop
iterations: buffer setup, attribute setup, texture creation, one-time
uniform uploads, then the render loop. -/
def mainTrace (e : Env) (frames : Nat) : List GLCall :=
  bufferSetup ++ attribSetup e.driver
    ++ (newTexture e "kitten.png" glTEXTURE0).2
    ++ uniformSetup e.driver
    ++ renderLoop (e.driver.uniformLoc "model") e.startTime e.clock frames

/-- The outcome of a run of `main`: a panic with an error value (every error
in `main` is handled by `panic(err)`), a nil-dereference runtime panic
inside `newTexture`, or a completed run with its GL trace. -/
inductive MainResult where
  | panicked (er : GoErr)
  | nilPanicked
  | ran (trace : List GLCall)
deriving DecidableEq, Repr

/-- `main`, parameterised by the number of loop iterations before
`window.ShouldClose()` turns true: GLFW init, window creation, GL init,
`newProgram("vertex.glsl", "fragment.glsl")`, VAO/VBO and attribute setup,
`newTexture("kitten.png", gl.TEXTURE0)`, one-time uniform uploads, then the
render loop. -/
def mainRun (e : Env) (frames : Nat) : MainResult :=
  if e.glfwOk = false then .panicked .glfwInitError
  else if e.windowOk = false then .panicked .windowError
  else if e.glInitOk = false then .panicked .glInitError
  else match newProgram e "vertex.glsl" "fragment.glsl" initState with
  | (.error er, _) => .panicked er
  | (.ok _, _) =>
    match newTexture e "kitten.png" glTEXTURE0 with
    | (.err er, _) => .panicked er
    | (.nilPanic, _) => .nilPanicked
    | (.ok _, _) => .ran (mainTrace e frames)

/-- Whether a GL call is a `DrawArrays` call. -/
def isDrawCall : GLCall → Bool
  | .drawArrays _ _ _ => true
  | _ => false

/-- Whether a GL call is a `BufferData` call. -/
def isBufferData : GLCall → Bool
  | .bufferData _ _ _ => true
  | _ => false

/-- The uniform-matrix writes of a trace, as (location, payload) pairs in
trace order. -/
def uniformWritesOf (trace : List GLCall) : List (Int × Payload) :=
  trace.filterMap fun c =>
    match c with
    | .uniformMatrix4fv loc m => some (loc, m)
    | _ => none

/-- Per-index vertex-attribute pointer configuration. -/
structure AttribPtr where
  size : Nat
  stride : Nat
  offset : Nat
deriving DecidableEq, Repr

/-- Driver-side vertex-attribute state: per-index pointer configurations and
the set of enabled attribute arrays. -/
structure AttribState where
  pointers : List (Nat × AttribPtr)
  enabled : List Nat
deriving DecidableEq, Repr

/-- Modelled from the OpenGL specification (external collaborator):
`VertexAttribPointer` and `EnableVertexAttribArray` with an index not below
`MAX_VERTEX_ATTRIBS` generate `INVALID_VALUE` and leave all attribute state
unchanged; other calls do not touch attribute state. -/
def applyAttribCall (maxVertexAttribs : Nat) (st : AttribState) :
    GLCall → AttribState
  | .vertexAttribPointer idx size stride offset =>
    if idx < maxVertexAttribs then
      { st with pointers :=
          (idx, ⟨size, stride, offset⟩) :: st.pointers.filter (fun q => q.1 != idx) }
    else st
  | .enableVertexAttribArray idx =>
    if idx < maxVertexAttribs then
      { st with enabled := if st.enabled.contains idx then st.enabled else idx :: st.enabled }
    else st
  | _ => st

theorem append_nul_ne_empty (s : String) : s ++ "\x00" ≠ "" := by
  intro h
  have h1 : (s ++ "\x00").length = 0 := by rw [h]; rfl
  rw [String.length_append] at h1
  have h2 : ("\x00" : String).length = 1 := rfl
  omega

theorem newProgram_ok (e : Env) (vf ff vsrc fsrc : String)
    (hv : e.fs vf = some vsrc) (hf : e.fs ff = some fsrc)
    (hcv : e.driver.compileOk .vertex vsrc = true)
    (hcf : e.driver.compileOk .fragment fsrc = true)
    (hl : e.driver.linkOk = true) :
    newProgram e vf ff initState
      = (.ok 1, { nextShader := 3, liveShaders := [],
                  nextProgram := 2, livePrograms := [1] }) := by
  simp [newProgram, compileShader, hv, hf, hcv, hcf, hl, initState, List.erase]

theorem renderLoop_filter_isDrawCall (u : Int) (t0 : ℚ) (c : Nat → ℚ) (N : Nat) :
    (renderLoop u t0 c N).filter isDrawCall
      = List.replicate N (.drawArrays glTRIANGLES 0 36) := by
  induction N with
  | zero => rfl
  | succ n ih =>
    rw [renderLoop, List.filter_append, ih, List.replicate_succ']
    rfl

theorem renderLoop_filter_isBufferData (u : Int) (t0 : ℚ) (c : Nat → ℚ) (N : Nat) :
    (renderLoop u t0 c N).filter isBufferData = [] := by
  induction N with
  | zero => rfl
  | succ n ih => rw [renderLoop, List.filter_append, ih]; rfl

theorem uniformWritesOf_append (a b : List GLCall) :
    uniformWritesOf (a ++ b) = uniformWritesOf a ++ uniformWritesOf b :=
  List.filterMap_append a b _

theorem uniformWritesOf_renderLoop (u : Int) (t0 : ℚ) (c : Nat → ℚ) (N : Nat) :
    uniformWritesOf (renderLoop u t0 c N)
      = (List.range N).map fun n => ((u, Payload.rotZ (rotationAngle t0 (c n))) : Int × Payload) := by
  induction N with
  | zero => rfl
  | succ n ih =>
    rw [renderLoop, uniformWritesOf_append, ih, List.range_succ, List.map_append]
    rfl

theorem newTexture_ok (e : Env) (file : String) (texNum : Nat)
    (hopen : e.openOk file = true) (hdec : e.decodeOk file = true)
    (hstr : e.rgbaStride file = (e.imgWidth file : Int) * 4) :
    newTexture e file texNum = (.ok 1, texTrace e file texNum) := by
  simp [newTexture, hopen, hdec, hstr]

theorem mainRun_ran (e : Env) (N : Nat) (vsrc fsrc : String)
    (hg : e.glfwOk = true) (hw : e.windowOk = true) (hgl : e.glInitOk = true)
    (hv : e.fs "vertex.glsl" = some vsrc) (hf : e.fs "fragment.glsl" = some fsrc)
    (hcv : e.driver.compileOk .vertex vsrc = true)
    (hcf : e.driver.compileOk .fragment fsrc = true)
    (hl : e.driver.linkOk = true)
    (hopen : e.openOk "kitten.png" = true)
    (hdec : e.decodeOk "kitten.png" = true)
    (hstr : e.rgbaStride "kitten.png" = (e.imgWidth "kitten.png" : Int) * 4) :
    mainRun e N = .ran (mainTrace e N) := by
  rw [mainRun, newProgram_ok e _ _ vsrc fsrc hv hf hcv hcf hl,
      newTexture_ok e _ _ hopen hdec hstr]
  simp [hg, hw, hgl]

/-- A driver for concrete test runs: everything compiles and links, the three
attributes and three uniforms are active at distinct locations. -/
def goodDriver : Driver :=
  { compileOk := fun _ _ => true
    shaderLog := fun _ _ => ""
    linkOk := true
    programLog := ""
    attribLoc := fun name =>
      if name = "position" then 0 else if name = "color" then 1
      else if name = "texCoord" then 2 else -1
    uniformLoc := fun name =>
      if name = "model" then 0 else if name = "view" then 1
      else if name = "proj" then 2 else -1 }

/-- A file system holding the two shader source files. -/
def baseFs : String → Option String := fun f =>
  if f = "vertex.glsl" then some "vsrc"
  else if f = "fragment.glsl" then some "fsrc" else none

/-- An environment in which every startup step succeeds. -/
def envOk : Env :=
  { glfwOk := true, windowOk := true, glInitOk := true
    fs := baseFs
    driver := goodDriver
    openOk := fun _ => true
    decodeOk := fun _ => true
    imgWidth := fun _ => 2
    imgHeight := fun _ => 2
    rgbaStride := fun _ => 8
    startTime := 0
    clock := fun n => n }

/-- An environment whose driver rejects the vertex shader. -/
def envVertexFail : Env :=
  { envOk with driver :=
    { goodDriver with
        compileOk := fun ty _ => match ty with | .vertex => false | .fragment => true
        shaderLog := fun _ _ => "bad syntax" } }

/-- An environment whose driver rejects the fragment shader. -/
def envFragFail : Env :=
  { envOk with driver :=
    { goodDriver with
        compileOk := fun ty _ => match ty with | .vertex => true | .fragment => false
        shaderLog := fun _ _ => "bad syntax" } }

/-- An environment whose driver fails the program link. -/
def envLinkFail : Env :=
  { envOk with driver :=
    { goodDriver with linkOk := false, programLog := "link diag" } }

/-- An environment in which `image.Decode` fails for every file. -/
def envDecodeFail : Env := { envOk with decodeOk := fun _ => false }

/-- An environment in which `os.Open` fails for every file. -/
def envOpenFail : Env := { envOk with openOk := fun _ => false }

/-- An environment whose RGBA buffer stride differs from `width*4`. -/
def envStrideBad : Env := { envOk with rgbaStride := fun _ => 100 }

/-- An environment in which the `color` attribute is inactive
(`GetAttribLocation` returns `-1`). -/
def envNoColor : Env :=
  { envOk with driver :=
    { goodDriver with attribLoc := fun name =>
        if name = "position" then 0 else if name = "texCoord" then 2 else -1 } }

/-- C1: every iteration of the render loop performs, in this exact order:
clear the color and depth buffers, build the rotation-about-Z transform with
angle (current time − start time) and upload it to the `model` uniform, one
draw call with mode TRIANGLES, first index 0 and count exactly 36, swap the
back buffer, poll events; over `N` loop iterations exactly `N` draw calls
are issued, each with count 36. -/
theorem renderLoop_frame_order_and_draw_count
    (uniModel : Int) (t0 : ℚ) (clock : Nat → ℚ) (N : Nat) :
    (∀ n : Nat, frameTrace uniModel t0 (clock n) =
      [.clear (glCOLOR_BUFFER_BIT ||| glDEPTH_BUFFER_BIT),
       .uniformMatrix4fv uniModel (.rotZ (clock n - t0)),
       .drawArrays glTRIANGLES 0 36,
       .swapBuffers,
       .pollEvents]) ∧
    (renderLoop uniModel t0 clock N).filter isDrawCall
        = List.replicate N (.drawArrays glTRIANGLES 0 36) ∧
    ((renderLoop uniModel t0 clock N).filter isDrawCall).length = N := by
  refine ⟨fun n => rfl, renderLoop_filter_isDrawCall uniModel t0 clock N, ?_⟩
  rw [renderLoop_filter_isDrawCall]
  exact List.length_replicate N _

/-- C8: for a fixed start time and sample times `t1 ≤ t2`, both at or after
the start time, the rotation angle computed for `t1` is at most the one
computed for `t2`: the angle (current time − start time) is monotonically
non-decreasing in the current time. -/
theorem rotationAngle_monotone (t0 t1 t2 : ℚ)
    (_h1 : t0 ≤ t1) (_h2 : t0 ≤ t2) (h12 : t1 ≤ t2) :
    rotationAngle t0 t1 ≤ rotationAngle t0 t2 := by
  unfold rotationAngle
  exact sub_le_sub_right h12 t0

theorem rotationAngle_monotone_witness :
    (0 : ℚ) ≤ 1 ∧ (0 : ℚ) ≤ 2 ∧ (1 : ℚ) ≤ 2 ∧
    rotationAngle 0 1 ≤ rotationAngle 0 2 :=
  ⟨by norm_num, by norm_num, by norm_num,
   rotationAngle_monotone 0 1 2 (by norm_num) (by norm_num) (by norm_num)⟩

/-- C2: when a shader fails to compile (compile status FALSE),
`compileShader` returns an error carrying the failing shader's source file
name (`vertex.glsl` for the vertex shader, `fragment.glsl` for the fragment
shader — identifying the shader kind) and the driver-provided diagnostic
text; the carried diagnostic string is non-empty; the error propagates out
of `newProgram`, no program object is ever created, and `main` aborts
(panics) with that error. -/
theorem compileShader_failure_propagates (e : Env) (N : Nat) (vsrc fsrc : String)
    (hg : e.glfwOk = true) (hw : e.windowOk = true) (hgl : e.glInitOk = true)
    (hv : e.fs "vertex.glsl" = some vsrc) (hf : e.fs "fragment.glsl" = some fsrc) :
    (e.driver.compileOk .vertex vsrc = false →
      newProgram e "vertex.glsl" "fragment.glsl" initState
        = (.error (.compileError "vertex.glsl" (e.driver.shaderLog .vertex vsrc ++ "\x00")),
           { nextShader := 2, liveShaders := [1], nextProgram := 1, livePrograms := [] }) ∧
      (GoErr.compileError "vertex.glsl" (e.driver.shaderLog .vertex vsrc ++ "\x00")).message
        = "failed to compile " ++ "vertex.glsl" ++ ": "
            ++ (e.driver.shaderLog .vertex vsrc ++ "\x00") ∧
      e.driver.shaderLog .vertex vsrc ++ "\x00" ≠ "" ∧
      mainRun e N
        = .panicked (.compileError "vertex.glsl" (e.driver.shaderLog .vertex vsrc ++ "\x00"))) ∧
    (e.driver.compileOk .vertex vsrc = true → e.driver.compileOk .fragment fsrc = false →
      newProgram e "vertex.glsl" "fragment.glsl" initState
        = (.error (.compileError "fragment.glsl" (e.driver.shaderLog .fragment fsrc ++ "\x00")),
           { nextShader := 3, liveShaders := [1, 2], nextProgram := 1, livePrograms := [] }) ∧
      (GoErr.compileError "fragment.glsl" (e.driver.shaderLog .fragment fsrc ++ "\x00")).message
        = "failed to compile " ++ "fragment.glsl" ++ ": "
            ++ (e.driver.shaderLog .fragment fsrc ++ "\x00") ∧
      e.driver.shaderLog .fragment fsrc ++ "\x00" ≠ "" ∧
      mainRun e N
        = .panicked (.compileError "fragment.glsl" (e.driver.shaderLog .fragment fsrc ++ "\x00"))) := by
  constructor
  · intro hcv
    have hnp : newProgram e "vertex.glsl" "fragment.glsl" initState
        = (.error (.compileError "vertex.glsl" (e.driver.shaderLog .vertex vsrc ++ "\x00")),
           { nextShader := 2, liveShaders := [1], nextProgram := 1, livePrograms := [] }) := by
      simp [newProgram, compileShader, hv, hcv, initState]
    refine ⟨hnp, rfl, append_nul_ne_empty _, ?_⟩
    simp [mainRun, hg, hw, hgl, hnp]
  · intro hcv hcf
    have hnp : newProgram e "vertex.glsl" "fragment.glsl" initState
        = (.error (.compileError "fragment.glsl" (e.driver.shaderLog .fragment fsrc ++ "\x00")),
           { nextShader := 3, liveShaders := [1, 2], nextProgram := 1, livePrograms := [] }) := by
      simp [newProgram, compileShader, hv, hf, hcv, hcf, initState]
    refine ⟨hnp, rfl, append_nul_ne_empty _, ?_⟩
    simp [mainRun, hg, hw, hgl, hnp]

theorem compileShader_failure_propagates_witness :
    (newProgram envVertexFail "vertex.glsl" "fragment.glsl" initState
        = (.error (.compileError "vertex.glsl" ("bad syntax" ++ "\x00")),
           { nextShader := 2, liveShaders := [1], nextProgram := 1, livePrograms := [] })) ∧
    ("bad syntax" ++ "\x00" : String) ≠ "" ∧
    mainRun envVertexFail 3
      = .panicked (.compileError "vertex.glsl" ("bad syntax" ++ "\x00")) := by
  have h := (compileShader_failure_propagates envVertexFail 3 "vsrc" "fsrc"
      rfl rfl rfl (by decide) (by decide)).1 (by decide)
  exact ⟨h.1, h.2.2.1, h.2.2.2⟩

/-- C3: when both shaders compile but the program link fails (link status
FALSE), `newProgram` returns an error whose message is
`"failed to link program: "` followed by the driver-provided link diagnostic,
and no program handle (the result is the error, not a handle); the error is
fatal to startup: `main` panics with it. -/
theorem newProgram_link_failure (e : Env) (N : Nat) (vsrc fsrc : String)
    (hg : e.glfwOk = true) (hw : e.windowOk = true) (hgl : e.glInitOk = true)
    (hv : e.fs "vertex.glsl" = some vsrc) (hf : e.fs "fragment.glsl" = some fsrc)
    (hcv : e.driver.compileOk .vertex vsrc = true)
    (hcf : e.driver.compileOk .fragment fsrc = true)
    (hl : e.driver.linkOk = false) :
    newProgram e "vertex.glsl" "fragment.glsl" initState
      = (.error (.linkError (e.driver.programLog ++ "\x00")),
         { nextShader := 3, liveShaders := [1, 2], nextProgram := 2, livePrograms := [1] }) ∧
    (GoErr.linkError (e.driver.programLog ++ "\x00")).message
      = "failed to link program: " ++ (e.driver.programLog ++ "\x00") ∧
    mainRun e N = .panicked (.linkError (e.driver.programLog ++ "\x00")) := by
  have hnp : newProgram e "vertex.glsl" "fragment.glsl" initState
      = (.error (.linkError (e.driver.programLog ++ "\x00")),
         { nextShader := 3, liveShaders := [1, 2], nextProgram := 2, livePrograms := [1] }) := by
    simp [newProgram, compileShader, hv, hf, hcv, hcf, hl, initState]
  refine ⟨hnp, rfl, ?_⟩
  simp [mainRun, hg, hw, hgl, hnp]

theorem newProgram_link_failure_witness :
    newProgram envLinkFail "vertex.glsl" "fragment.glsl" initState
      = (.error (.linkError ("link diag" ++ "\x00")),
         { nextShader := 3, liveShaders := [1, 2], nextProgram := 2, livePrograms := [1] }) ∧
    (GoErr.linkError ("link diag" ++ "\x00")).message
      = "failed to link program: " ++ ("link diag" ++ "\x00") ∧
    mainRun envLinkFail 3 = .panicked (.linkError ("link diag" ++ "\x00")) :=
  newProgram_link_failure envLinkFail 3 "vsrc" "fsrc"
    rfl rfl rfl (by decide) (by decide) rfl rfl rfl

/-- C4 counterexample: a run in which the fragment shader fails to compile.
`newProgram` returns the error, yet the failure path does have a side effect
beyond the error: both shader objects created so far (handles 1 and 2)
remain live — they are never deleted — contradicting the claim that no
allocated shader object remains live on the failure path. -/
theorem newProgram_failure_leaves_live_shaders :
    (newProgram envFragFail "vertex.glsl" "fragment.glsl" initState).1
        = .error (.compileError "fragment.glsl" ("bad syntax" ++ "\x00")) ∧
    (newProgram envFragFail "vertex.glsl" "fragment.glsl" initState).2.liveShaders
        = [1, 2] ∧
    ([1, 2] : List Nat) ≠ [] := by
  refine ⟨rfl, by decide, by decide⟩

/-- C4 amended: `newProgram` deletes both intermediate shader objects after a
successful link (only the program object stays live); but its failure paths
do have side effects beyond the returned error: when the vertex shader fails
to compile, that shader object stays live; when the fragment shader fails,
both shader objects stay live; when the link fails, both shader objects and
the program object stay live.  (When a source file cannot be read the error
precedes any allocation, so nothing is live.) -/
theorem newProgram_cleanup_behaviour (e : Env) (vf ff vsrc fsrc : String)
    (hv : e.fs vf = some vsrc) (hf : e.fs ff = some fsrc) :
    (e.driver.compileOk .vertex vsrc = true → e.driver.compileOk .fragment fsrc = true →
      e.driver.linkOk = true →
      (newProgram e vf ff initState).2
        = { nextShader := 3, liveShaders := [], nextProgram := 2, livePrograms := [1] }) ∧
    (e.driver.compileOk .vertex vsrc = false →
      (newProgram e vf ff initState).2
        = { nextShader := 2, liveShaders := [1], nextProgram := 1, livePrograms := [] }) ∧
    (e.driver.compileOk .vertex vsrc = true → e.driver.compileOk .fragment fsrc = false →
      (newProgram e vf ff initState).2
        = { nextShader := 3, liveShaders := [1, 2], nextProgram := 1, livePrograms := [] }) ∧
    (e.driver.compileOk .vertex vsrc = true → e.driver.compileOk .fragment fsrc = true →
      e.driver.linkOk = false →
      (newProgram e vf ff initState).2
        = { nextShader := 3, liveShaders := [1, 2], nextProgram := 2, livePrograms := [1] }) := by
  refine ⟨fun h1 h2 h3 => ?_, fun h1 => ?_, fun h1 h2 => ?_, fun h1 h2 h3 => ?_⟩
  · simp [newProgram, compileShader, hv, hf, h1, h2, h3, initState, List.erase]
  · simp [newProgram, compileShader, hv, h1, initState]
  · simp [newProgram, compileShader, hv, hf, h1, h2, initState]
  · simp [newProgram, compileShader, hv, hf, h1, h2, h3, initState]

theorem newProgram_cleanup_behaviour_witness :
    (newProgram envOk "vertex.glsl" "fragment.glsl" initState).2
      = { nextShader := 3, liveShaders := [], nextProgram := 2, livePrograms := [1] } :=
  (newProgram_cleanup_behaviour envOk "vertex.glsl" "fragment.glsl" "vsrc" "fsrc"
    (by decide) (by decide)).1 rfl rfl rfl

/-- C5: the error returned by `image.Decode` is discarded before the decoded
image is used.  For every input file that opens successfully but fails to
decode, `newTexture` does not return the decode error — it dereferences the
nil image (`img.Bounds()`) and panics, producing no error return at all; in
general the only error returns of `newTexture` are the file-open failure and
the stride mismatch. -/
theorem newTexture_discards_decode_error (e : Env) (file : String) (texNum : Nat)
    (hopen : e.openOk file = true) (hdec : e.decodeOk file = false) :
    newTexture e file texNum = (.nilPanic, []) ∧
    (∀ e2 : Env, ∀ f2 : String, ∀ t2 : Nat, ∀ er : GoErr,
      (newTexture e2 f2 t2).1 = .err er → er = .fileError f2 ∨ er = .strideError) := by
  constructor
  · simp [newTexture, hopen, hdec]
  · intro e2 f2 t2 er h
    by_cases h1 : e2.openOk f2 = false
    · simp [newTexture, h1] at h
      exact Or.inl h.symm
    · by_cases h2 : e2.decodeOk f2 = false
      · simp [newTexture, h1, h2] at h
      · by_cases h3 : e2.rgbaStride f2 = (e2.imgWidth f2 : Int) * 4
        · simp [newTexture, h1, h2, h3] at h
        · simp [newTexture, h1, h2, h3] at h
          exact Or.inr h.symm

theorem newTexture_discards_decode_error_witness :
    newTexture envDecodeFail "kitten.png" glTEXTURE0 = (.nilPanic, []) ∧
    (GoErr.fileError "kitten.png" = GoErr.fileError "kitten.png"
      ∨ GoErr.fileError "kitten.png" = GoErr.strideError) := by
  have h := newTexture_discards_decode_error envDecodeFail "kitten.png" glTEXTURE0 rfl rfl
  exact ⟨h.1, h.2 envOpenFail "kitten.png" glTEXTURE0 (GoErr.fileError "kitten.png") (by decide)⟩

/-- C6: when an attribute name in the upload code is not active in the
linked program (`GetAttribLocation` returns `-1`), the program link itself
still succeeds; the code casts the `int32` location `-1` to `uint32`,
yielding `2^32 - 1`, and passes it to the attribute-pointer and enable
calls; under the GL semantics those calls with an index at or above
`MAX_VERTEX_ATTRIBS` are ignored, so the setup does not crash and is a
no-op for that attribute (the attribute state is unchanged). -/
theorem inactive_attribute_is_noop (e : Env) (vsrc fsrc : String) (a : String)
    (hv : e.fs "vertex.glsl" = some vsrc) (hf : e.fs "fragment.glsl" = some fsrc)
    (hcv : e.driver.compileOk .vertex vsrc = true)
    (hcf : e.driver.compileOk .fragment fsrc = true)
    (hl : e.driver.linkOk = true)
    (ha : e.driver.attribLoc a = -1)
    (maxVertexAttribs : Nat) (hmax : maxVertexAttribs ≤ 2 ^ 31)
    (st : AttribState) (p : AttribPtr) :
    (newProgram e "vertex.glsl" "fragment.glsl" initState).1 = .ok 1 ∧
    goUint32 (e.driver.attribLoc a) = 2 ^ 32 - 1 ∧
    applyAttribCall maxVertexAttribs st
        (.vertexAttribPointer (goUint32 (e.driver.attribLoc a)) p.size p.stride p.offset)
      = st ∧
    applyAttribCall maxVertexAttribs st
        (.enableVertexAttribArray (goUint32 (e.driver.attribLoc a))) = st := by
  have hcast : goUint32 (e.driver.attribLoc a) = 2 ^ 32 - 1 := by
    rw [ha]; decide
  have hge : ¬ (4294967295 < maxVertexAttribs) := by
    intro hlt
    have hcon : (4294967295 : Nat) ≤ 2 ^ 31 := le_trans (le_of_lt hlt) hmax
    norm_num at hcon
  refine ⟨?_, hcast, ?_, ?_⟩
  · rw [newProgram_ok e _ _ vsrc fsrc hv hf hcv hcf hl]
  · rw [hcast]; simp [applyAttribCall, hge]
  · rw [hcast]; simp [applyAttribCall, hge]

theorem inactive_attribute_is_noop_witness :
    (newProgram envNoColor "vertex.glsl" "fragment.glsl" initState).1 = .ok 1 ∧
    goUint32 (envNoColor.driver.attribLoc "color") = 2 ^ 32 - 1 ∧
    applyAttribCall 16 ⟨[], []⟩
        (.vertexAttribPointer (goUint32 (envNoColor.driver.attribLoc "color")) 3 32 12)
      = (⟨[], []⟩ : AttribState) ∧
    applyAttribCall 16 ⟨[], []⟩
        (.enableVertexAttribArray (goUint32 (envNoColor.driver.attribLoc "color")))
      = (⟨[], []⟩ : AttribState) := by
  have h := inactive_attribute_is_noop envNoColor "vsrc" "fsrc" "color"
    (by decide) (by decide) rfl rfl rfl (by decide) 16 (by norm_num)
    ⟨[], []⟩ ⟨3, 32, 12⟩
  exact h

/-- C7: in a successful run, the `view` and `proj` matrix uniforms are each
written exactly once, at startup before the render loop begins, and never
again; the `model` uniform is the only uniform written during the loop, once
per frame.  The full sequence of uniform writes of a run over `N` frames is:
view, proj, then `N` model writes. -/
theorem view_proj_written_once (e : Env) (N : Nat) (vsrc fsrc : String)
    (hg : e.glfwOk = true) (hw : e.windowOk = true) (hgl : e.glInitOk = true)
    (hv : e.fs "vertex.glsl" = some vsrc) (hf : e.fs "fragment.glsl" = some fsrc)
    (hcv : e.driver.compileOk .vertex vsrc = true)
    (hcf : e.driver.compileOk .fragment fsrc = true)
    (hl : e.driver.linkOk = true)
    (hopen : e.openOk "kitten.png" = true)
    (hdec : e.decodeOk "kitten.png" = true)
    (hstr : e.rgbaStride "kitten.png" = (e.imgWidth "kitten.png" : Int) * 4) :
    mainRun e N = .ran (mainTrace e N) ∧
    uniformWritesOf (mainTrace e N)
      = [(e.driver.uniformLoc "view", .viewLookAt),
         (e.driver.uniformLoc "proj", .projPerspective)]
        ++ (List.range N).map
            (fun n => ((e.driver.uniformLoc "model",
                Payload.rotZ (rotationAngle e.startTime (e.clock n))) : Int × Payload)) := by
  refine ⟨mainRun_ran e N vsrc fsrc hg hw hgl hv hf hcv hcf hl hopen hdec hstr, ?_⟩
  rw [mainTrace, newTexture_ok e _ _ hopen hdec hstr]
  rw [uniformWritesOf_append, uniformWritesOf_append, uniformWritesOf_append,
      uniformWritesOf_append, uniformWritesOf_renderLoop]
  rfl

theorem view_proj_written_once_witness :
    mainRun envOk 2 = .ran (mainTrace envOk 2) ∧
    uniformWritesOf (mainTrace envOk 2)
      = [(envOk.driver.uniformLoc "view", .viewLookAt),
         (envOk.driver.uniformLoc "proj", .projPerspective)]
        ++ (List.range 2).map
            (fun n => ((envOk.driver.uniformLoc "model",
                Payload.rotZ (rotationAngle envOk.startTime (envOk.clock n))) : Int × Payload)) :=
  view_proj_written_once envOk 2 "vsrc" "fsrc"
    rfl rfl rfl (by decide) (by decide) rfl rfl rfl rfl rfl (by decide)

/-- C9: when the decoded image's RGBA buffer has non-contiguous rows (its
stride differs from width times 4), `newTexture` returns the
`"unsupported stride"` error having issued no GL call at all — in particular
no texture upload — and the condition is startup-fatal: `main` panics with
that error. -/
theorem newTexture_stride_mismatch_fatal (e : Env) (N : Nat) (vsrc fsrc : String)
    (hg : e.glfwOk = true) (hw : e.windowOk = true) (hgl : e.glInitOk = true)
    (hv : e.fs "vertex.glsl" = some vsrc) (hf : e.fs "fragment.glsl" = some fsrc)
    (hcv : e.driver.compileOk .vertex vsrc = true)
    (hcf : e.driver.compileOk .fragment fsrc = true)
    (hl : e.driver.linkOk = true)
    (hopen : e.openOk "kitten.png" = true)
    (hdec : e.decodeOk "kitten.png" = true)
    (hstr : e.rgbaStride "kitten.png" ≠ (e.imgWidth "kitten.png" : Int) * 4) :
    newTexture e "kitten.png" glTEXTURE0 = (.err .strideError, []) ∧
    GoErr.message .strideError = "unsupported stride" ∧
    mainRun e N = .panicked .strideError := by
  have ht : newTexture e "kitten.png" glTEXTURE0 = (.err .strideError, []) := by
    simp [newTexture, hopen, hdec, hstr]
  refine ⟨ht, rfl, ?_⟩
  simp [mainRun, hg, hw, hgl,
    newProgram_ok e "vertex.glsl" "fragment.glsl" vsrc fsrc hv hf hcv hcf hl, ht]

theorem newTexture_stride_mismatch_fatal_witness :
    newTexture envStrideBad "kitten.png" glTEXTURE0 = (.err .strideError, []) ∧
    GoErr.message .strideError = "unsupported stride" ∧
    mainRun envStrideBad 3 = .panicked .strideError :=
  newTexture_stride_mismatch_fatal envStrideBad 3 "vsrc" "fsrc"
    rfl rfl rfl (by decide) (by decide) rfl rfl rfl rfl rfl (by decide)

set_option maxRecDepth 4000 in
/-- C10: the static vertex array holds exactly 336 float values — 42 records
of 8 floats each (3 position, 3 color, 2 texture coordinate): 36 cube
vertices followed by 6 ground-quad vertices.  In a successful run the whole
array is uploaded exactly once (`len(vertices)*4` bytes with STATIC_DRAW),
but every draw call of the loop covers only the first 36 records, so the
remaining 6 ground-quad records are uploaded yet never drawn. -/
theorem vertex_array_uploaded_once_drawn_partially (e : Env) (N : Nat) (vsrc fsrc : String)
    (hg : e.glfwOk = true) (hw : e.windowOk = true) (hgl : e.glInitOk = true)
    (hv : e.fs "vertex.glsl" = some vsrc) (hf : e.fs "fragment.glsl" = some fsrc)
    (hcv : e.driver.compileOk .vertex vsrc = true)
    (hcf : e.driver.compileOk .fragment fsrc = true)
    (hl : e.driver.linkOk = true)
    (hopen : e.openOk "kitten.png" = true)
    (hdec : e.decodeOk "kitten.png" = true)
    (hstr : e.rgbaStride "kitten.png" = (e.imgWidth "kitten.png" : Int) * 4) :
    vertices.length = 336 ∧
    vertices.length = 42 * 8 ∧
    mainRun e N = .ran (mainTrace e N) ∧
    (mainTrace e N).filter isBufferData
      = [.bufferData glARRAY_BUFFER (vertices.length * 4) glSTATIC_DRAW] ∧
    (mainTrace e N).filter isDrawCall
      = List.replicate N (.drawArrays glTRIANGLES 0 36) ∧
    vertices.length / 8 - 36 = 6 := by
  refine ⟨rfl, rfl, mainRun_ran e N vsrc fsrc hg hw hgl hv hf hcv hcf hl hopen hdec hstr,
    ?_, ?_, rfl⟩
  · rw [mainTrace, newTexture_ok e _ _ hopen hdec hstr]
    rw [List.filter_append, List.filter_append, List.filter_append, List.filter_append,
        renderLoop_filter_isBufferData]
    rfl
  · rw [mainTrace, newTexture_ok e _ _ hopen hdec hstr]
    rw [List.filter_append, List.filter_append, List.filter_append, List.filter_append,
        renderLoop_filter_isDrawCall]
    rfl

theorem vertex_array_uploaded_once_drawn_partially_witness :
    vertices.length = 336 ∧
    vertices.length = 42 * 8 ∧
    mainRun envOk 2 = .ran (mainTrace envOk 2) ∧
    (mainTrace envOk 2).filter isBufferData
      = [.bufferData glARRAY_BUFFER (vertices.length * 4) glSTATIC_DRAW] ∧
    (mainTrace envOk 2).filter isDrawCall
      = List.replicate 2 (.drawArrays glTRIANGLES 0 36) ∧
    vertices.length / 8 - 36 = 6 :=
  vertex_array_uploaded_once_drawn_partially envOk 2 "vsrc" "fsrc"
    rfl rfl rfl (by decide) (by decide) rfl rfl rfl rfl rfl (by decide)
